import Mathlib

/-!
Verification of the BigQuery reporting service layer
(src/backend/app/database.py, class BigQueryService).

The Python module is shallowly embedded: every query operation is a pure
Lean function over explicit inputs.  SQL queries are modelled by their
semantics over a list of rows (the table); the query engine itself may
fail, which is modelled by an "Except QueryError" outcome parameter where
the error path of an operation is the subject of a claim.  Python numbers
are embedded as rationals, SQL integer aggregates as integers, nullable
columns as Option, and Python truthiness tests are spelled out explicitly.
-/

/-- Errors raised by the query engine (google.cloud.bigquery).  The module
under verification never inspects an exception, so an opaque message
string suffices. -/
abbrev QueryError := String

/- ------------------------------------------------------------------ -/
/- Numeric helpers: Python and BigQuery rounding primitives            -/
/- ------------------------------------------------------------------ -/

/-- Python "int(x)": truncation toward zero. -/
def pyInt (q : ℚ) : ℤ :=
  if 0 ≤ q then ⌊q⌋ else -⌊-q⌋

/-- Python "round" ties go to the nearest even integer (banker's
rounding). -/
def roundHalfToEven (q : ℚ) : ℤ :=
  if q - ⌊q⌋ < 1/2 then ⌊q⌋
  else if 1/2 < q - ⌊q⌋ then ⌊q⌋ + 1
  else if ⌊q⌋ % 2 = 0 then ⌊q⌋ else ⌊q⌋ + 1

/-- Python "round(x, 1)". -/
def pyRound1 (q : ℚ) : ℚ := (roundHalfToEven (q * 10) : ℚ) / 10

/-- Python "round(x, 2)". -/
def pyRound2 (q : ℚ) : ℚ := (roundHalfToEven (q * 100) : ℚ) / 100

/-- BigQuery ROUND(x) rounds ties away from zero. -/
def roundHalfAwayFromZero (q : ℚ) : ℤ :=
  if 0 ≤ q then ⌊q + 1/2⌋ else -⌊-q + 1/2⌋

/-- BigQuery "ROUND(x, 0)" (result kept as a numeric value). -/
def bqRound0 (q : ℚ) : ℚ := (roundHalfAwayFromZero q : ℚ)

/-- BigQuery "ROUND(x, 1)". -/
def bqRound1 (q : ℚ) : ℚ := (roundHalfAwayFromZero (q * 10) : ℚ) / 10

/-- BigQuery "ROUND(x, 2)". -/
def bqRound2 (q : ℚ) : ℚ := (roundHalfAwayFromZero (q * 100) : ℚ) / 100

/-- Average of a list of rationals (SQL AVG over the non-null values
that reach it; every use below is on values already filtered non-null
and non-zero where the SQL uses NULLIF guards). -/
def listAvg (l : List ℚ) : ℚ := l.sum / (l.length : ℚ)

/- ------------------------------------------------------------------ -/
/- String helpers: codepoint-lexicographic order and LIKE containment  -/
/- ------------------------------------------------------------------ -/

/-- Strict lexicographic order on character lists, by codepoint. -/
def charListLt : List Char → List Char → Bool
  | [], [] => false
  | [], _ :: _ => true
  | _ :: _, [] => false
  | a :: as, b :: bs =>
    if a.toNat < b.toNat then true
    else if b.toNat < a.toNat then false
    else charListLt as bs

/-- Strict lexicographic order on strings (SQL ORDER BY on a string
column). -/
def strLtB (a b : String) : Bool := charListLt a.data b.data

/-- Reflexive lexicographic order on strings. -/
def strLeB (a b : String) : Bool := !strLtB b a

/-- Character-list prefix test. -/
def charListPrefix : List Char → List Char → Bool
  | [], _ => true
  | _ :: _, [] => false
  | a :: as, b :: bs => (a == b) && charListPrefix as bs

/-- Character-list substring test. -/
def charListContainsSub (pat : List Char) : List Char → Bool
  | [] => charListPrefix pat []
  | c :: rest => charListPrefix pat (c :: rest) || charListContainsSub pat rest

/-- SQL "s LIKE pattern" for an infix pattern such as the source's
availability filter: the pattern with its surrounding percent signs
stripped must occur as a substring. -/
def likeInfix (s pat : String) : Bool := charListContainsSub pat.data s.data

/- ------------------------------------------------------------------ -/
/- Table-name settings (set_table_settings / get_rentroll_table /      -/
/- get_competition_table)                                              -/
/- ------------------------------------------------------------------ -/

/-- The argument of set_table_settings.  The table names may be absent
(None in Python), which the accessors treat like an empty string. -/
structure TableSettings where
  rentroll_table : Option String
  competition_table : Option String
  project_id : String
deriving DecidableEq, Repr

/-- The mutable configuration owned by BigQueryService:
fields _rentroll_table, _competition_table, _project_id. -/
structure BigQueryServiceState where
  rentroll_table : Option String
  competition_table : Option String
  project_id : String
deriving DecidableEq, Repr

/-- The constructor state: both table overrides start as None and the
project id starts as the configured gcp project id. -/
def initState (gcp_project_id : String) : BigQueryServiceState :=
  { rentroll_table := none, competition_table := none, project_id := gcp_project_id }

/-- set_table_settings: all three fields are unconditionally
overwritten. -/
def set_table_settings (_st : BigQueryServiceState) (ts : TableSettings) :
    BigQueryServiceState :=
  { rentroll_table := ts.rentroll_table
    competition_table := ts.competition_table
    project_id := ts.project_id }

/-- Python truthiness of an optional string: None and the empty string
are falsy. -/
def pyTruthyStr : Option String → Bool
  | none => false
  | some s => !s.isEmpty

/-- get_rentroll_table: the stored override if it is truthy, otherwise
the hard-coded fallback built from the configured gcp project id. -/
def get_rentroll_table (gcp_project_id : String) (st : BigQueryServiceState) : String :=
  match st.rentroll_table with
  | some s => if s.isEmpty then gcp_project_id ++ ".rentroll.Update_7_8_native" else s
  | none => gcp_project_id ++ ".rentroll.Update_7_8_native"

/-- get_competition_table: the stored override if it is truthy, otherwise
the hard-coded fallback built from the configured gcp project id. -/
def get_competition_table (gcp_project_id : String) (st : BigQueryServiceState) : String :=
  match st.competition_table with
  | some s => if s.isEmpty then gcp_project_id ++ ".rentroll.Competition" else s
  | none => gcp_project_id ++ ".rentroll.Competition"

/- ------------------------------------------------------------------ -/
/- Unit inventory rows (mart unit_snapshot) and get_units              -/
/- ------------------------------------------------------------------ -/

/-- One row of the unit_snapshot mart table, with the columns selected
by get_units / get_unit_by_id. -/
structure UnitRow where
  unit_id : String
  property : String
  bed : ℤ
  bath : ℚ
  sqft : ℚ
  status : String
  advertised_rent : ℚ
  market_rent : ℚ
  rent_per_sqft : ℚ
  move_out_date : Option String
  lease_end_date : Option String
  days_to_lease_end : Option ℤ
  needs_pricing : Bool
  rent_premium_pct : ℚ
  pricing_urgency : String
  unit_type : String
  size_category : String
  annual_revenue_potential : ℚ
  has_complete_data : Bool
deriving DecidableEq, Repr

/-- The optional filters of get_units. -/
structure UnitsFilters where
  status_filter : Option String
  property_filter : Option String
  needs_pricing_only : Bool
deriving DecidableEq, Repr

/-- The WHERE clause built by get_units: always has_complete_data, and a
conjunct per filter that is truthy in Python (None and the empty string
contribute no condition). -/
def get_units_where (f : UnitsFilters) (u : UnitRow) : Bool :=
  u.has_complete_data
  && (match f.status_filter with
      | none => true
      | some s => if s.isEmpty then true else u.status == s)
  && (match f.property_filter with
      | none => true
      | some p => if p.isEmpty then true else u.property == p)
  && (if f.needs_pricing_only then u.needs_pricing else true)

/-- The ORDER BY key of the get_units data query:
needs_pricing rows first, then pricing_urgency descending, then
property ascending, then unit_id ascending. -/
def get_units_le (a b : UnitRow) : Bool :=
  let pa : Nat := if a.needs_pricing then 0 else 1
  let pb : Nat := if b.needs_pricing then 0 else 1
  if pa ≠ pb then pa < pb
  else if a.pricing_urgency ≠ b.pricing_urgency then
    strLtB b.pricing_urgency a.pricing_urgency
  else if a.property ≠ b.property then strLtB a.property b.property
  else strLeB a.unit_id b.unit_id

/-- The get_units data query before LIMIT/OFFSET: the filtered table in
ORDER BY order. -/
def get_units_sorted (l : List UnitRow) : List UnitRow :=
  l.insertionSort (fun a b => get_units_le a b = true)

/-- get_units success path: the data query applies the WHERE clause, the
ORDER BY chain, then OFFSET (page - 1) * page_size and LIMIT page_size;
the count query applies the same WHERE clause to an independent
COUNT(*). -/
def get_units (table : List UnitRow) (f : UnitsFilters)
    (page page_size : Nat) : List UnitRow × Nat :=
  (((get_units_sorted (table.filter (get_units_where f))).drop
      ((page - 1) * page_size)).take page_size,
   (table.filter (get_units_where f)).length)

/-- get_units exception handling: the count query runs first, then the
data query; any engine exception is logged and re-raised unchanged. -/
def get_units_catch (count_outcome : Except QueryError Nat)
    (data_outcome : Except QueryError (List UnitRow)) :
    Except QueryError (List UnitRow × Nat) := do
  let total_count ← count_outcome
  let units ← data_outcome
  return (units, total_count)

/-- get_unit_by_id: the first row if any, None on zero rows, and any
engine exception is logged and re-raised unchanged. -/
def get_unit_by_id (outcome : Except QueryError (List UnitRow)) :
    Except QueryError (Option UnitRow) :=
  match outcome with
  | Except.ok rows => Except.ok rows.head?
  | Except.error e => Except.error e

/- ------------------------------------------------------------------ -/
/- get_unit_comparables / get_properties / get_unit_types_summary      -/
/- ------------------------------------------------------------------ -/

/-- One row of the unit_competitor_pairs mart table, with the columns
selected by get_unit_comparables. -/
structure UnitComparableRow where
  unit_id : String
  our_property : String
  bed : ℤ
  bath : ℚ
  our_sqft : ℚ
  advertised_rent : ℚ
  comp_id : String
  comp_property : String
  comp_sqft : ℚ
  comp_price : ℚ
  is_available : Bool
  sqft_delta_pct : ℚ
  price_gap_pct : ℚ
  similarity_score : ℚ
  comp_rank : ℤ
  total_comps : ℤ
  avg_comp_price : ℚ
  median_comp_price : ℚ
  min_comp_price : ℚ
  max_comp_price : ℚ
  comp_price_stddev : ℚ
deriving DecidableEq, Repr

/-- get_unit_comparables: the query result frame is returned as-is on
success; any exception is caught and an EMPTY frame is returned in its
place (the operation never raises). -/
def get_unit_comparables (outcome : Except QueryError (List UnitComparableRow)) :
    List UnitComparableRow :=
  match outcome with
  | Except.ok df => df
  | Except.error _ => []

/-- get_properties: the distinct non-null property names on success; any
exception is caught and an EMPTY list is returned in its place. -/
def get_properties (outcome : Except QueryError (List String)) : List String :=
  match outcome with
  | Except.ok properties => properties
  | Except.error _ => []

/-- One grouped row of the unit-type summary query. The averages are
nullable (SQL AVG over an empty or all-null group). -/
structure UnitTypeSummaryRow where
  unit_type : String
  total_units : ℤ
  units_needing_pricing : ℤ
  avg_rent : Option ℚ
  avg_rent_per_sqft : Option ℚ
deriving DecidableEq, Repr

/-- The per-unit-type record built by get_unit_types_summary. -/
structure UnitTypeSummary where
  total_units : ℤ
  units_needing_pricing : ℤ
  avg_rent : ℚ
  avg_rent_per_sqft : ℚ
deriving DecidableEq, Repr

/-- Python "float(x) if x else 0": None (and a zero value) become 0. -/
def pyFloatOr0 : Option ℚ → ℚ
  | none => 0
  | some q => q

/-- get_unit_types_summary: a dictionary keyed by unit type on success
(null averages normalized to zero); any exception is caught and an EMPTY
dictionary is returned in its place. -/
def get_unit_types_summary
    (outcome : Except QueryError (List UnitTypeSummaryRow)) :
    List (String × UnitTypeSummary) :=
  match outcome with
  | Except.ok rows =>
      rows.map (fun r =>
        (r.unit_type,
         { total_units := r.total_units
           units_needing_pricing := r.units_needing_pricing
           avg_rent := pyFloatOr0 r.avg_rent
           avg_rent_per_sqft := pyFloatOr0 r.avg_rent_per_sqft }))
  | Except.error _ => []

/- ------------------------------------------------------------------ -/
/- Portfolio analytics and property performance metrics (occupancy)    -/
/- ------------------------------------------------------------------ -/

/-- The portfolio_json aggregate of get_portfolio_analytics. -/
structure PortfolioJson where
  total_units : ℤ
  vacant_units : ℤ
  occupied_units : ℤ
  notice_units : ℤ
  units_needing_pricing : ℤ
  total_revenue_potential : ℚ
  current_annual_revenue : ℚ
  avg_rent_per_sqft : Option ℚ
  avg_occupied_rent : Option ℚ
  avg_vacant_rent : Option ℚ
deriving DecidableEq, Repr

/-- get_portfolio_analytics derived metric: occupancy_rate is
occupied_units / total_units * 100 when total_units is positive,
otherwise 0 (the division never runs). -/
def portfolio_occupancy_rate (p : PortfolioJson) : ℚ :=
  if p.total_units > 0 then (p.occupied_units : ℚ) / (p.total_units : ℚ) * 100 else 0

/-- get_portfolio_analytics derived metric: revenue_optimization_potential. -/
def portfolio_revenue_optimization_potential (p : PortfolioJson) : ℚ :=
  p.total_revenue_potential - p.current_annual_revenue

/-- The single-row aggregate of the performance_query in
get_property_vs_competition_analysis. -/
structure PerformanceMetricsRow where
  total_units : ℤ
  vacant_units : ℤ
  occupied_units : ℤ
  notice_units : ℤ
  units_needing_pricing : ℤ
  avg_rent : Option ℚ
  avg_rent_per_sqft : Option ℚ
  total_revenue_potential : ℚ
  current_annual_revenue : ℚ
deriving DecidableEq, Repr

/-- get_property_vs_competition_analysis derived metric: occupancy_rate
is (occupied_units / total_units) * 100 when total_units is positive,
otherwise 0 (the division never runs). -/
def performance_occupancy_rate (p : PerformanceMetricsRow) : ℚ :=
  if p.total_units > 0 then ((p.occupied_units : ℚ) / (p.total_units : ℚ)) * 100 else 0

/-- get_property_vs_competition_analysis derived metric:
revenue_opportunity. -/
def performance_revenue_opportunity (p : PerformanceMetricsRow) : ℚ :=
  p.total_revenue_potential - p.current_annual_revenue

/- ------------------------------------------------------------------ -/
/- Competition listings and the two enrichment WHERE clauses           -/
/- ------------------------------------------------------------------ -/

/-- One row of the external competitor-listing table.  Bed is a nullable
text label such as "Studio" or "2 Beds". -/
structure CompetitionListing where
  Property : String
  Bed : Option String
  Sq_Ft : ℚ
  Base_Price : ℚ
  Availability : String
deriving DecidableEq, Repr

/-- The unit-type to bedroom-label mapping of the overview enrichment in
get_property_vs_competition_analysis (unknown unit types default to
"1 Bed"). -/
def bed_filter_of_unit_type (unit_type : String) : String :=
  if unit_type == "1BR" then "1 Bed"
  else if unit_type == "2BR" then "2 Beds"
  else if unit_type == "3BR" then "3 Beds"
  else if unit_type == "4BR+" then "4 Beds"
  else if unit_type == "STUDIO" then "Studio"
  else "1 Bed"

/-- The bedroom-count to bedroom-label mapping used by the rent
comparison, the unit-level analysis join and the top-competitors join
(negative counts fall through to "1 Bed"). -/
def bed_text_of_bed (bed : ℤ) : String :=
  if bed == 0 then "Studio"
  else if bed == 1 then "1 Bed"
  else if bed == 2 then "2 Beds"
  else if bed == 3 then "3 Beds"
  else if bed ≥ 4 then "4 Beds"
  else "1 Bed"

/-- WHERE clause of the per-unit-type overview enrichment query
(market_query): bedroom label match, positive price and square footage,
and Base_Price within the [avg_our_rent * 0.7, avg_our_rent * 1.3]
price band. -/
def overview_market_where (avg_our_rent : ℚ) (bed_filter : String)
    (c : CompetitionListing) : Bool :=
  (c.Bed == some bed_filter)
  && decide (0 < c.Base_Price)
  && decide (0 < c.Sq_Ft)
  && decide (avg_our_rent * 0.7 ≤ c.Base_Price)
  && decide (c.Base_Price ≤ avg_our_rent * 1.3)

/-- WHERE clause of the per-bedroom-count rent-comparison enrichment
query (comp_query): bedroom label match and positive price and square
footage only — no price band. -/
def rent_comparison_comp_where (bed_text : String)
    (c : CompetitionListing) : Bool :=
  (c.Bed == some bed_text)
  && decide (0 < c.Base_Price)
  && decide (0 < c.Sq_Ft)

/- ------------------------------------------------------------------ -/
/- Per-unit-type overview enrichment (overview_data loop)              -/
/- ------------------------------------------------------------------ -/

/-- One grouped row of the overview_query in
get_property_vs_competition_analysis. -/
structure OverviewRow where
  property : String
  unit_type : String
  unit_count : ℤ
  avg_our_rent : ℚ
  avg_our_rent_per_sqft : ℚ
  vacant_units : ℤ
  units_needing_pricing : ℤ
  revenue_potential : ℚ
deriving DecidableEq, Repr

/-- The single aggregate row produced by the market_query enrichment.
Both averages are nullable (AVG over zero rows). -/
structure MarketAggRow where
  avg_market_rent : Option ℚ
  avg_market_rent_per_sqft : Option ℚ
  comp_count : ℤ
deriving DecidableEq, Repr

/-- Semantics of the market_query over a competitor-listing table: one
aggregate row with ROUND(AVG(Base_Price), 0),
ROUND(AVG(Base_Price / Sq_Ft), 2) and COUNT(*) over the rows passing
overview_market_where (the averages are null on an empty selection). -/
def market_query_rows (listings : List CompetitionListing)
    (avg_our_rent : ℚ) (bed_filter : String) : List MarketAggRow :=
  let sel := listings.filter (overview_market_where avg_our_rent bed_filter)
  [{ avg_market_rent :=
       if sel.isEmpty then none
       else some (bqRound0 (listAvg (sel.map (fun c => c.Base_Price))))
     avg_market_rent_per_sqft :=
       if sel.isEmpty then none
       else some (bqRound2 (listAvg (sel.map (fun c => c.Base_Price / c.Sq_Ft))))
     comp_count := (sel.length : ℤ) }]

/-- The per-unit-type overview record after enrichment: the grouped row
plus the three market fields added in the loop body. -/
structure OverviewEnriched where
  row : OverviewRow
  avg_market_rent : ℤ
  avg_market_rent_per_sqft : ℚ
  avg_premium_discount_pct : ℚ
deriving DecidableEq, Repr

/-- The overview enrichment loop body: if the market_query succeeds and
its first row has a non-null average and a positive comp count, the real
market numbers are used; otherwise — including when the query raises —
the synthetic fallback is used: int(avg_our_rent * 1.05),
round(avg_our_rent_per_sqft * 1.05, 2) and -4.8. -/
def enrichOverviewRow (r : OverviewRow)
    (outcome : Except QueryError (List MarketAggRow)) : OverviewEnriched :=
  match outcome with
  | Except.ok (m :: _) =>
      match m.avg_market_rent with
      | some amr =>
          if m.comp_count > 0 then
            { row := r
              avg_market_rent := pyInt amr
              avg_market_rent_per_sqft := pyFloatOr0 m.avg_market_rent_per_sqft
              avg_premium_discount_pct :=
                if amr > 0 then pyRound1 ((r.avg_our_rent - amr) / amr * 100)
                else 0 }
          else
            { row := r
              avg_market_rent := pyInt (r.avg_our_rent * 1.05)
              avg_market_rent_per_sqft := pyRound2 (r.avg_our_rent_per_sqft * 1.05)
              avg_premium_discount_pct := -4.8 }
      | none =>
          { row := r
            avg_market_rent := pyInt (r.avg_our_rent * 1.05)
            avg_market_rent_per_sqft := pyRound2 (r.avg_our_rent_per_sqft * 1.05)
            avg_premium_discount_pct := -4.8 }
  | Except.ok [] =>
      { row := r
        avg_market_rent := pyInt (r.avg_our_rent * 1.05)
        avg_market_rent_per_sqft := pyRound2 (r.avg_our_rent_per_sqft * 1.05)
        avg_premium_discount_pct := -4.8 }
  | Except.error _ =>
      { row := r
        avg_market_rent := pyInt (r.avg_our_rent * 1.05)
        avg_market_rent_per_sqft := pyRound2 (r.avg_our_rent_per_sqft * 1.05)
        avg_premium_discount_pct := -4.8 }

/-- The overview_data list: the enrichment loop applied to every grouped
row, with the engine outcome of each per-row market_query supplied by
the environment. -/
def overview_data (rows : List OverviewRow)
    (outcomes : OverviewRow → Except QueryError (List MarketAggRow)) :
    List OverviewEnriched :=
  rows.map (fun r => enrichOverviewRow r (outcomes r))

/- ------------------------------------------------------------------ -/
/- Unit-level analysis CASE formulas (get_property_unit_analysis)      -/
/- ------------------------------------------------------------------ -/

/-- The potential_rent_increase CASE of the units_query:
ROUND(avg_comp_rent - advertised_rent, 0) when the comp average exists
and exceeds the advertised rent, ELSE 0 (never null). -/
def unit_analysis_potential_rent_increase
    (avg_comp_rent : Option ℚ) (advertised_rent : ℚ) : ℚ :=
  match avg_comp_rent with
  | some a => if a > advertised_rent then bqRound0 (a - advertised_rent) else 0
  | none => 0

/-- The annual_opportunity CASE of the units_query:
ROUND((avg_comp_rent - advertised_rent) * 12, 0) when the comp average
exists and exceeds the advertised rent, ELSE 0 (never null). -/
def unit_analysis_annual_opportunity
    (avg_comp_rent : Option ℚ) (advertised_rent : ℚ) : ℚ :=
  match avg_comp_rent with
  | some a => if a > advertised_rent then bqRound0 ((a - advertised_rent) * 12) else 0
  | none => 0

/-- The market_position CASE of the units_query. -/
def unit_analysis_market_position
    (avg_comp_rent : Option ℚ) (advertised_rent : ℚ) : String :=
  match avg_comp_rent with
  | some a =>
      if advertised_rent > a * 1.05 then "ABOVE_MARKET"
      else if advertised_rent < a * 0.95 then "BELOW_MARKET"
      else "AT_MARKET"
  | none => "NO_DATA"

/- ------------------------------------------------------------------ -/
/- Top competitors (get_property_market_trends)                        -/
/- ------------------------------------------------------------------ -/

/-- One grouped row of the property_units CTE in the competitors_query:
units of the analyzed property grouped by (bed, bath, sqft,
advertised_rent). -/
structure PropUnitGroup where
  bed : ℤ
  bath : ℚ
  sqft : ℚ
  advertised_rent : ℚ
  our_unit_count : ℤ
deriving DecidableEq, Repr

/-- The INNER JOIN predicate of the competitors_query: bedroom label
match, Base_Price within the wide band
[advertised_rent * 0.7, advertised_rent * 1.3], and positive price and
square footage. -/
def competitor_join_on (p : PropUnitGroup) (c : CompetitionListing) : Bool :=
  (c.Bed == some (bed_text_of_bed p.bed))
  && decide (p.advertised_rent * 0.7 ≤ c.Base_Price)
  && decide (c.Base_Price ≤ p.advertised_rent * 1.3)
  && decide (0 < c.Base_Price)
  && decide (0 < c.Sq_Ft)

/-- The narrow "truly comparable" test of the competitors_query:
Base_Price within plus or minus 15 percent of the advertised rent and
Sq_Ft within plus or minus 15 percent of the unit square footage. -/
def truly_comparable (p : PropUnitGroup) (c : CompetitionListing) : Bool :=
  decide (p.advertised_rent * 0.85 ≤ c.Base_Price)
  && decide (c.Base_Price ≤ p.advertised_rent * 1.15)
  && decide (p.sqft * 0.85 ≤ c.Sq_Ft)
  && decide (c.Sq_Ft ≤ p.sqft * 1.15)

/-- The joined (listing, property-unit-group) pairs of the
competitors_query. -/
def competitor_matched_pairs (listings : List CompetitionListing)
    (groups : List PropUnitGroup) :
    List (CompetitionListing × PropUnitGroup) :=
  (listings.flatMap (fun c => groups.map (fun p => (c, p)))).filter
    (fun cp => competitor_join_on cp.2 cp.1)

/-- The joined pairs belonging to one competing property. -/
def competitor_pairs_of (listings : List CompetitionListing)
    (groups : List PropUnitGroup) (pn : String) :
    List (CompetitionListing × PropUnitGroup) :=
  (competitor_matched_pairs listings groups).filter (fun cp => cp.1.Property == pn)

/-- The truly-comparable count of one competing property. -/
def truly_comparable_count (listings : List CompetitionListing)
    (groups : List PropUnitGroup) (pn : String) : Nat :=
  ((competitor_pairs_of listings groups pn).filter
    (fun cp => truly_comparable cp.2 cp.1)).length

/-- The competing properties retained by the HAVING clause: at least 3
truly comparable joined units. -/
def qualifying_competitor_properties (listings : List CompetitionListing)
    (groups : List PropUnitGroup) : List String :=
  ((listings.map (fun c => c.Property)).dedup).filter
    (fun pn => 3 ≤ truly_comparable_count listings groups pn)

/-- The similarity expression averaged per competing property:
0.6 weighted relative price closeness plus 0.4 weighted relative size
closeness. -/
def competitor_similarity_expr (p : PropUnitGroup) (c : CompetitionListing) : ℚ :=
  (1 - |c.Base_Price - p.advertised_rent| / max c.Base_Price p.advertised_rent) * 0.6
  + (1 - |c.Sq_Ft - p.sqft| / max c.Sq_Ft p.sqft) * 0.4

/-- The raw (unrounded, unclamped) average similarity score of one
competing property. -/
def competitor_raw_similarity (listings : List CompetitionListing)
    (groups : List PropUnitGroup) (pn : String) : ℚ :=
  listAvg ((competitor_pairs_of listings groups pn).map
    (fun cp => competitor_similarity_expr cp.2 cp.1))

/-- One record of the top_competitors result. -/
structure CompetitorRecord where
  competitor_property : String
  our_units_compared : ℤ
  their_comparable_units : ℤ
  their_avg_rent : ℚ
  their_avg_rent_per_sqft : ℚ
  avg_similarity_score : ℚ
  their_available_units : ℤ
deriving DecidableEq, Repr

/-- The projected record of the competitors_query for one qualifying
competing property (the Base_Price / Sq_Ft average matches the SQL
NULLIF(Sq_Ft, 0) guard because every joined listing has positive
Sq_Ft). -/
def competitor_record_for (listings : List CompetitionListing)
    (groups : List PropUnitGroup) (pn : String) : CompetitorRecord :=
  let pairs := competitor_pairs_of listings groups pn
  { competitor_property := pn
    our_units_compared := ((pairs.map (fun cp => cp.2.our_unit_count)).sum)
    their_comparable_units := (truly_comparable_count listings groups pn : ℤ)
    their_avg_rent := bqRound0 (listAvg (pairs.map (fun cp => cp.1.Base_Price)))
    their_avg_rent_per_sqft :=
      bqRound2 (listAvg (pairs.map (fun cp => cp.1.Base_Price / cp.1.Sq_Ft)))
    avg_similarity_score :=
      bqRound2 (max 0.1 (min 1 (competitor_raw_similarity listings groups pn)))
    their_available_units :=
      ((pairs.filter (fun cp => likeInfix cp.1.Availability "Available")).length : ℤ) }

/-- The ORDER BY of the competitors_query: truly_comparable_units
descending, then raw calculated_similarity_score descending. -/
def competitor_order_le (listings : List CompetitionListing)
    (groups : List PropUnitGroup) (a b : String) : Bool :=
  let ta := truly_comparable_count listings groups a
  let tb := truly_comparable_count listings groups b
  if ta ≠ tb then tb < ta
  else decide (competitor_raw_similarity listings groups b
                ≤ competitor_raw_similarity listings groups a)

/-- Semantics of the competitors_query: the per-property records of the
qualifying competing properties, ordered by the ORDER BY chain and
capped by LIMIT 10. -/
def competitors_query_rows (listings : List CompetitionListing)
    (groups : List PropUnitGroup) : List CompetitorRecord :=
  (((qualifying_competitor_properties listings groups).insertionSort
      (fun a b => competitor_order_le listings groups a b = true)).map
    (competitor_record_for listings groups)).take 10

/-- get_property_market_trends top_competitors: the query rows when the
query succeeds with at least one row; a single all-zero
"No Direct Competitors Found" placeholder when it succeeds with zero
rows; a single all-zero "Data Unavailable" placeholder when it raises. -/
def top_competitors
    (outcome : Except QueryError (List CompetitorRecord)) :
    List CompetitorRecord :=
  match outcome with
  | Except.ok rows =>
      if rows.isEmpty then
        [{ competitor_property := "No Direct Competitors Found"
           our_units_compared := 0
           their_comparable_units := 0
           their_avg_rent := 0
           their_avg_rent_per_sqft := 0
           avg_similarity_score := 0
           their_available_units := 0 }]
      else rows
  | Except.error _ =>
      [{ competitor_property := "Data Unavailable"
         our_units_compared := 0
         their_comparable_units := 0
         their_avg_rent := 0
         their_avg_rent_per_sqft := 0
         avg_similarity_score := 0
         their_available_units := 0 }]

/- ------------------------------------------------------------------ -/
/- Helper lemmas                                                       -/
/- ------------------------------------------------------------------ -/

/-- BigQuery ROUND(x, 0) of a non-negative value is non-negative. -/
lemma bqRound0_nonneg (q : ℚ) (hq : 0 ≤ q) : 0 ≤ bqRound0 q := by
  unfold bqRound0 roundHalfAwayFromZero
  rw [if_pos hq]
  have hfl : (0 : ℤ) ≤ ⌊q + 1/2⌋ := Int.floor_nonneg.mpr (by linarith)
  exact_mod_cast hfl

/-- Concatenating consecutive size-s chunks of a list reconstructs the
list once the chunks cover its length. -/
lemma flatten_chunks {α : Type} (s : Nat) :
    ∀ (k : Nat) (l : List α), l.length ≤ k * s →
      ((List.range k).map (fun i => (l.drop (i * s)).take s)).flatten = l := by
  intro k
  induction k with
  | zero =>
      intro l hl
      rw [Nat.zero_mul, Nat.le_zero] at hl
      rw [List.length_eq_zero.mp hl]
      simp
  | succ k ih =>
      intro l hl
      rw [Nat.succ_mul] at hl
      rw [List.range_succ_eq_map, List.map_cons, List.map_map, List.flatten_cons]
      have h0 : (l.drop (0 * s)).take s = l.take s := by
        rw [Nat.zero_mul, List.drop_zero]
      have hcomp : ((fun i => (l.drop (i * s)).take s) ∘ Nat.succ)
          = fun i => (((l.drop s).drop (i * s)).take s) := by
        funext i
        have : Nat.succ i * s = i * s + s := Nat.succ_mul i s
        simp only [Function.comp, this, List.drop_drop]
        rw [Nat.add_comm]
      rw [h0, hcomp, ih (l.drop s) (by
        rw [List.length_drop]
        exact Nat.sub_le_iff_le_add.mpr hl)]
      exact List.take_append_drop s l

/- ------------------------------------------------------------------ -/
/- Claims                                                              -/
/- ------------------------------------------------------------------ -/

/-- C1 (counterexample): contrary to the claim that the comparables
lookup, the distinct-properties listing and the per-unit-type summary
re-raise query failures, each of the three catches the engine exception
and returns an empty substitute value (empty frame, empty list, empty
dictionary). -/
theorem C1_counterexample_secondary_queries_substitute :
    get_unit_comparables (Except.error "bigquery failure") = [] ∧
    get_properties (Except.error "bigquery failure") = [] ∧
    get_unit_types_summary (Except.error "bigquery failure") = [] :=
  ⟨rfl, rfl, rfl⟩

/-- C1 (amended): primary query operations such as the paginated unit
listing and the single-unit lookup log engine exceptions and re-raise
them unchanged, but the comparables lookup, the distinct-properties
listing and the per-unit-type summary instead catch the exception and
return an empty frame, an empty list and an empty dictionary
respectively. -/
theorem C1_amended_log_and_propagate (e : QueryError)
    (d : Except QueryError (List UnitRow)) (n : Nat) :
    get_unit_comparables (Except.error e) = [] ∧
    get_properties (Except.error e) = [] ∧
    get_unit_types_summary (Except.error e) = [] ∧
    get_units_catch (Except.error e) d = Except.error e ∧
    get_units_catch (Except.ok n) (Except.error e) = Except.error e ∧
    get_unit_by_id (Except.error e) = Except.error e :=
  ⟨rfl, rfl, rfl, rfl, rfl, rfl⟩

/-- C2 (counterexample): updating the settings with an empty-string
rentroll table and competition table does NOT make the accessors return
the passed values; both return the hard-coded fallback instead. -/
theorem C2_counterexample_empty_override :
    get_rentroll_table "demo-project"
        (set_table_settings (initState "demo-project")
          { rentroll_table := some "", competition_table := some "",
            project_id := "demo-project" }) ≠ "" ∧
    get_competition_table "demo-project"
        (set_table_settings (initState "demo-project")
          { rentroll_table := some "", competition_table := some "",
            project_id := "demo-project" }) ≠ "" ∧
    get_rentroll_table "demo-project"
        (set_table_settings (initState "demo-project")
          { rentroll_table := some "", competition_table := some "",
            project_id := "demo-project" })
      = "demo-project.rentroll.Update_7_8_native" ∧
    get_competition_table "demo-project"
        (set_table_settings (initState "demo-project")
          { rentroll_table := some "", competition_table := some "",
            project_id := "demo-project" })
      = "demo-project.rentroll.Competition" := by
  refine ⟨?_, ?_, ?_, ?_⟩ <;> decide

/-- C2 (amended): after an update whose table-name values are truthy
(non-None, non-empty), the accessors return exactly the passed values;
absent any update the accessors return the hard-coded fallback
fully-qualified names built from the configured project id. -/
theorem C2_amended_settings_override (gcp : String)
    (st : BigQueryServiceState) (ts : TableSettings) (r c : String)
    (hr : ts.rentroll_table = some r) (hrne : r.isEmpty = false)
    (hc : ts.competition_table = some c) (hcne : c.isEmpty = false) :
    get_rentroll_table gcp (set_table_settings st ts) = r ∧
    get_competition_table gcp (set_table_settings st ts) = c ∧
    get_rentroll_table gcp (initState gcp)
      = gcp ++ ".rentroll.Update_7_8_native" ∧
    get_competition_table gcp (initState gcp)
      = gcp ++ ".rentroll.Competition" := by
  refine ⟨?_, ?_, rfl, rfl⟩
  · simp [get_rentroll_table, set_table_settings, hr, hrne]
  · simp [get_competition_table, set_table_settings, hc, hcne]

/-- C2 witness: a concrete truthy override is returned verbatim and the
pristine service returns the fallback names. -/
theorem C2_amended_settings_override_witness :
    get_rentroll_table "demo-project"
        (set_table_settings (initState "demo-project")
          { rentroll_table := some "demo-project.rentroll.v2",
            competition_table := some "demo-project.rentroll.Comp2",
            project_id := "demo-project" })
      = "demo-project.rentroll.v2" ∧
    get_competition_table "demo-project"
        (set_table_settings (initState "demo-project")
          { rentroll_table := some "demo-project.rentroll.v2",
            competition_table := some "demo-project.rentroll.Comp2",
            project_id := "demo-project" })
      = "demo-project.rentroll.Comp2" ∧
    get_rentroll_table "demo-project" (initState "demo-project")
      = "demo-project" ++ ".rentroll.Update_7_8_native" ∧
    get_competition_table "demo-project" (initState "demo-project")
      = "demo-project" ++ ".rentroll.Competition" :=
  C2_amended_settings_override "demo-project" (initState "demo-project")
    { rentroll_table := some "demo-project.rentroll.v2",
      competition_table := some "demo-project.rentroll.Comp2",
      project_id := "demo-project" }
    "demo-project.rentroll.v2" "demo-project.rentroll.Comp2"
    rfl (by decide) rfl (by decide)

/-- C8: an update carrying a falsy (None or empty-string) table value is
indistinguishable from no update: the accessors return the hard-coded
fallback names, exactly as on the pristine service state. -/
theorem C8_falsy_override_falls_back (gcp : String)
    (st : BigQueryServiceState) (ts : TableSettings)
    (hr : ts.rentroll_table = none ∨ ts.rentroll_table = some "")
    (hc : ts.competition_table = none ∨ ts.competition_table = some "") :
    get_rentroll_table gcp (set_table_settings st ts)
      = gcp ++ ".rentroll.Update_7_8_native" ∧
    get_competition_table gcp (set_table_settings st ts)
      = gcp ++ ".rentroll.Competition" ∧
    get_rentroll_table gcp (set_table_settings st ts)
      = get_rentroll_table gcp (initState gcp) ∧
    get_competition_table gcp (set_table_settings st ts)
      = get_competition_table gcp (initState gcp) := by
  have hE : ("" : String).isEmpty = true := rfl
  rcases hr with hr | hr <;> rcases hc with hc | hc <;>
    exact ⟨by simp [get_rentroll_table, set_table_settings, hr, hE],
           by simp [get_competition_table, set_table_settings, hc, hE],
           by simp [get_rentroll_table, set_table_settings, initState, hr, hE],
           by simp [get_competition_table, set_table_settings, initState, hc, hE]⟩

/-- C8 witness: overriding with None and the empty string yields the
fallback names on a concrete state. -/
theorem C8_falsy_override_falls_back_witness :
    get_rentroll_table "demo-project"
        (set_table_settings (initState "demo-project")
          { rentroll_table := none, competition_table := some "",
            project_id := "demo-project" })
      = "demo-project" ++ ".rentroll.Update_7_8_native" ∧
    get_competition_table "demo-project"
        (set_table_settings (initState "demo-project")
          { rentroll_table := none, competition_table := some "",
            project_id := "demo-project" })
      = "demo-project" ++ ".rentroll.Competition" ∧
    get_rentroll_table "demo-project"
        (set_table_settings (initState "demo-project")
          { rentroll_table := none, competition_table := some "",
            project_id := "demo-project" })
      = get_rentroll_table "demo-project" (initState "demo-project") ∧
    get_competition_table "demo-project"
        (set_table_settings (initState "demo-project")
          { rentroll_table := none, competition_table := some "",
            project_id := "demo-project" })
      = get_competition_table "demo-project" (initState "demo-project") :=
  C8_falsy_override_falls_back "demo-project" (initState "demo-project")
    { rentroll_table := none, competition_table := some "",
      project_id := "demo-project" }
    (Or.inl rfl) (Or.inr rfl)

/-- C9: the comparables lookup never raises: an engine exception is
replaced by an empty frame, which is exactly what a successful query
with zero rows also returns, so the two cases cannot be told apart. -/
theorem C9_comparables_never_raise (e : QueryError)
    (rows : List UnitComparableRow) :
    get_unit_comparables (Except.error e) = [] ∧
    get_unit_comparables (Except.ok rows) = rows ∧
    get_unit_comparables (Except.error e) = get_unit_comparables (Except.ok []) :=
  ⟨rfl, rfl, rfl⟩

/-- C6: in both the portfolio analytics and the property performance
metrics, the derived occupancy rate is 0 when total_units is 0 (the
division is never executed) and equals occupied divided by total times
100 when total_units is positive. -/
theorem C6_occupancy_rate_zero_guard (p0 p1 : PortfolioJson)
    (q0 q1 : PerformanceMetricsRow)
    (h0 : p0.total_units = 0) (h1 : 0 < p1.total_units)
    (g0 : q0.total_units = 0) (g1 : 0 < q1.total_units) :
    portfolio_occupancy_rate p0 = 0 ∧
    portfolio_occupancy_rate p1
      = (p1.occupied_units : ℚ) / (p1.total_units : ℚ) * 100 ∧
    performance_occupancy_rate q0 = 0 ∧
    performance_occupancy_rate q1
      = ((q1.occupied_units : ℚ) / (q1.total_units : ℚ)) * 100 := by
  refine ⟨?_, ?_, ?_, ?_⟩
  · unfold portfolio_occupancy_rate
    rw [if_neg]
    omega
  · unfold portfolio_occupancy_rate
    rw [if_pos h1]
  · unfold performance_occupancy_rate
    rw [if_neg]
    omega
  · unfold performance_occupancy_rate
    rw [if_pos g1]

/-- C6 witness: an empty property yields rate 0 and a 3-of-4 occupied
property yields rate 75, in both operations. -/
theorem C6_occupancy_rate_zero_guard_witness :
    portfolio_occupancy_rate ⟨0, 0, 0, 0, 0, 0, 0, none, none, none⟩ = 0 ∧
    portfolio_occupancy_rate ⟨4, 1, 3, 0, 0, 0, 0, none, none, none⟩ = 75 ∧
    performance_occupancy_rate ⟨0, 0, 0, 0, 0, none, none, 0, 0⟩ = 0 ∧
    performance_occupancy_rate ⟨4, 1, 3, 0, 0, none, none, 0, 0⟩ = 75 := by
  have h := C6_occupancy_rate_zero_guard
    ⟨0, 0, 0, 0, 0, 0, 0, none, none, none⟩
    ⟨4, 1, 3, 0, 0, 0, 0, none, none, none⟩
    ⟨0, 0, 0, 0, 0, none, none, 0, 0⟩
    ⟨4, 1, 3, 0, 0, none, none, 0, 0⟩
    rfl (by decide) rfl (by decide)
  refine ⟨h.1, ?_, h.2.2.1, ?_⟩
  · rw [h.2.1]
    norm_num
  · rw [h.2.2.2]
    norm_num

/-- C7: in the unit-level analysis, when the comp average exists but does
not exceed the advertised rent (or does not exist at all) both
potential_rent_increase and annual_opportunity are exactly 0 — never
negative, never null — and when the comp average exceeds the rent they
are ROUND(avg - rent, 0) and ROUND((avg - rent) * 12, 0), both
non-negative. -/
theorem C7_opportunity_case_guard (a b r : ℚ) (hle : a ≤ r) (hgt : r < b) :
    unit_analysis_potential_rent_increase (some a) r = 0 ∧
    unit_analysis_annual_opportunity (some a) r = 0 ∧
    unit_analysis_potential_rent_increase none r = 0 ∧
    unit_analysis_annual_opportunity none r = 0 ∧
    unit_analysis_potential_rent_increase (some b) r = bqRound0 (b - r) ∧
    unit_analysis_annual_opportunity (some b) r = bqRound0 ((b - r) * 12) ∧
    0 ≤ unit_analysis_potential_rent_increase (some b) r ∧
    0 ≤ unit_analysis_annual_opportunity (some b) r := by
  have hnot : ¬ a > r := not_lt.mpr hle
  refine ⟨?_, ?_, rfl, rfl, ?_, ?_, ?_, ?_⟩
  · simp [unit_analysis_potential_rent_increase, hnot]
  · simp [unit_analysis_annual_opportunity, hnot]
  · simp [unit_analysis_potential_rent_increase, hgt]
  · simp [unit_analysis_annual_opportunity, hgt]
  · simp only [unit_analysis_potential_rent_increase, if_pos hgt]
    exact bqRound0_nonneg _ (by linarith)
  · simp only [unit_analysis_annual_opportunity, if_pos hgt]
    exact bqRound0_nonneg _ (by linarith)

/-- C7 witness: a unit advertised at 1200 with comp average 1100 carries
zero opportunity, while comp average 1300 carries a 100 monthly and 1200
annual opportunity. -/
theorem C7_opportunity_case_guard_witness :
    unit_analysis_potential_rent_increase (some 1100) 1200 = 0 ∧
    unit_analysis_annual_opportunity (some 1100) 1200 = 0 ∧
    unit_analysis_potential_rent_increase (some 1300) 1200 = 100 ∧
    unit_analysis_annual_opportunity (some 1300) 1200 = 1200 := by
  have h := C7_opportunity_case_guard 1100 1300 1200 (by norm_num) (by norm_num)
  refine ⟨h.1, h.2.1, ?_, ?_⟩
  · rw [h.2.2.2.2.1]
    norm_num [bqRound0, roundHalfAwayFromZero]
  · rw [h.2.2.2.2.2.1]
    norm_num [bqRound0, roundHalfAwayFromZero]

/-- C3: in the per-unit-type overview, whenever the enrichment query
raises, returns no row, or returns a first row without a positive comp
count, the enriched row carries the synthetic fallback: avg_market_rent
is our average rent times 1.05 truncated to int, avg_market_rent_per_sqft
is our rent-per-sqft times 1.05 rounded to 2 decimals, and
avg_premium_discount_pct is exactly -4.8. -/
theorem C3_overview_unit_type_fallback (r : OverviewRow)
    (o : Except QueryError (List MarketAggRow))
    (h : (∃ e, o = Except.error e) ∨ o = Except.ok [] ∨
         ∃ m rest, o = Except.ok (m :: rest) ∧ m.comp_count ≤ 0) :
    (enrichOverviewRow r o).avg_market_rent = pyInt (r.avg_our_rent * 1.05) ∧
    (enrichOverviewRow r o).avg_market_rent_per_sqft
      = pyRound2 (r.avg_our_rent_per_sqft * 1.05) ∧
    (enrichOverviewRow r o).avg_premium_discount_pct = -4.8 := by
  rcases h with ⟨e, rfl⟩ | rfl | ⟨m, rest, rfl, hm⟩
  · exact ⟨rfl, rfl, rfl⟩
  · exact ⟨rfl, rfl, rfl⟩
  · have hnot : ¬ m.comp_count > 0 := not_lt.mpr hm
    cases hma : m.avg_market_rent with
    | none => simp [enrichOverviewRow, hma]
    | some amr => simp [enrichOverviewRow, hma, hnot]

/-- C3 witness: a 1BR group averaging 1000 rent and 2 rent-per-sqft whose
enrichment query raises gets market rent 1050, market rent-per-sqft 2.1
and discount -4.8. -/
theorem C3_overview_unit_type_fallback_witness :
    (enrichOverviewRow ⟨"Maple Ridge", "1BR", 3, 1000, 2, 0, 0, 0⟩
        (Except.error "connection reset")).avg_market_rent = 1050 ∧
    (enrichOverviewRow ⟨"Maple Ridge", "1BR", 3, 1000, 2, 0, 0, 0⟩
        (Except.error "connection reset")).avg_market_rent_per_sqft = 21/10 ∧
    (enrichOverviewRow ⟨"Maple Ridge", "1BR", 3, 1000, 2, 0, 0, 0⟩
        (Except.error "connection reset")).avg_premium_discount_pct = -4.8 := by
  have h := C3_overview_unit_type_fallback
    ⟨"Maple Ridge", "1BR", 3, 1000, 2, 0, 0, 0⟩
    (Except.error "connection reset")
    (Or.inl ⟨"connection reset", rfl⟩)
  refine ⟨?_, ?_, h.2.2⟩
  · rw [h.1]
    show pyInt (1000 * 1.05) = 1050
    norm_num [pyInt]
  · rw [h.2.1]
    show pyRound2 (2 * 1.05) = 21/10
    norm_num [pyRound2, roundHalfToEven]

/-- C10: the per-bedroom rent-comparison enrichment WHERE clause is
implied by the per-unit-type overview enrichment WHERE clause (it drops
only the price band — it takes no rent argument at all), and the two
clauses select genuinely different competitor populations: some listing
passes the bedroom-only clause while falling outside the [0.7, 1.3]
price band of the overview clause. -/
theorem C10_enrichment_price_band_asymmetry :
    (∀ (r : ℚ) (lbl : String) (c : CompetitionListing),
        overview_market_where r lbl c = true →
          rent_comparison_comp_where lbl c = true) ∧
    (∃ (r : ℚ) (lbl : String) (c : CompetitionListing),
        rent_comparison_comp_where lbl c = true ∧
        overview_market_where r lbl c = false) := by
  refine ⟨?_, ?_⟩
  · intro r lbl c h
    simp only [overview_market_where, Bool.and_eq_true, decide_eq_true_eq] at h
    simp only [rent_comparison_comp_where, Bool.and_eq_true, decide_eq_true_eq]
    exact ⟨⟨h.1.1.1.1, h.1.1.1.2⟩, h.1.1.2⟩
  · refine ⟨1000, "1 Bed", ⟨"Rival Flats", some "1 Bed", 500, 100, "Available Now"⟩, ?_, ?_⟩
    · simp only [rent_comparison_comp_where, Bool.and_eq_true, decide_eq_true_eq]
      norm_num
    · rw [Bool.eq_false_iff]
      intro h
      simp only [overview_market_where, Bool.and_eq_true, decide_eq_true_eq] at h
      have hband := h.1.2
      norm_num at hband

/-- C10 witness: a concrete listing inside the price band passes the
overview clause and hence the rent-comparison clause. -/
theorem C10_enrichment_price_band_asymmetry_witness :
    rent_comparison_comp_where "1 Bed"
      ⟨"Rival Flats", some "1 Bed", 500, 800, "Available Now"⟩ = true :=
  C10_enrichment_price_band_asymmetry.1 1000 "1 Bed"
    ⟨"Rival Flats", some "1 Bed", 500, 800, "Available Now"⟩
    (by simp only [overview_market_where, Bool.and_eq_true, decide_eq_true_eq]
        norm_num)

/-- C4: in the market-trends operation, when no competing property
reaches three truly-comparable units the top_competitors list is exactly
the single all-zero "No Direct Competitors Found" placeholder, and when
the competitors query raises it is exactly the single all-zero
"Data Unavailable" placeholder; in both cases the list is non-empty. -/
theorem C4_top_competitors_placeholder (listings : List CompetitionListing)
    (groups : List PropUnitGroup) (e : QueryError)
    (h : qualifying_competitor_properties listings groups = []) :
    top_competitors (Except.ok (competitors_query_rows listings groups))
      = [⟨"No Direct Competitors Found", 0, 0, 0, 0, 0, 0⟩] ∧
    top_competitors (Except.error e)
      = [⟨"Data Unavailable", 0, 0, 0, 0, 0, 0⟩] ∧
    top_competitors (Except.ok (competitors_query_rows listings groups)) ≠ [] ∧
    top_competitors (Except.error e) ≠ [] := by
  have hrows : competitors_query_rows listings groups = [] := by
    unfold competitors_query_rows
    rw [h]
    simp
  refine ⟨?_, rfl, ?_, by simp [top_competitors]⟩
  · rw [hrows]
    rfl
  · rw [hrows]
    simp [top_competitors]

/-- C4 witness: with no competitor listings at all, zero properties
qualify, and the operation returns the placeholders. -/
theorem C4_top_competitors_placeholder_witness :
    top_competitors (Except.ok (competitors_query_rows [] []))
      = [⟨"No Direct Competitors Found", 0, 0, 0, 0, 0, 0⟩] ∧
    top_competitors (Except.error "deadline exceeded")
      = [⟨"Data Unavailable", 0, 0, 0, 0, 0, 0⟩] ∧
    top_competitors (Except.ok (competitors_query_rows [] [])) ≠ [] ∧
    top_competitors (Except.error "deadline exceeded") ≠ [] :=
  C4_top_competitors_placeholder [] [] "deadline exceeded" rfl

/-- C5: for every page p at least 1 and page size s, the unit page has at
most s rows and equals the sorted filtered table sliced at offset
(p - 1) * s; total_count is the count of the very same WHERE predicate
applied to the table; and the concatenation of all pages in order is
exactly the sorted filtered table — a permutation of the filtered table,
of length total_count, hence without duplicates for duplicate-free
underlying data. -/
theorem C5_get_units_pagination (t : List UnitRow) (f : UnitsFilters)
    (p s k : Nat) (hp : 1 ≤ p) (hs : 0 < s)
    (hk : (t.filter (get_units_where f)).length ≤ k * s) :
    (get_units t f p s).1.length ≤ s ∧
    (get_units t f p s).1
      = ((get_units_sorted (t.filter (get_units_where f))).drop
          ((p - 1) * s)).take s ∧
    (get_units t f p s).2 = (t.filter (get_units_where f)).length ∧
    ((List.range k).map (fun i => (get_units t f (i + 1) s).1)).flatten
      = get_units_sorted (t.filter (get_units_where f)) ∧
    (((List.range k).map (fun i => (get_units t f (i + 1) s).1)).flatten).Perm
      (t.filter (get_units_where f)) ∧
    (((List.range k).map (fun i => (get_units t f (i + 1) s).1)).flatten).length
      = (get_units t f p s).2 := by
  have hlen : (get_units_sorted (t.filter (get_units_where f))).length
      = (t.filter (get_units_where f)).length :=
    (List.perm_insertionSort _ _).length_eq
  have hpages : ((List.range k).map (fun i => (get_units t f (i + 1) s).1)).flatten
      = get_units_sorted (t.filter (get_units_where f)) := by
    have hstep : (fun i => (get_units t f (i + 1) s).1)
        = fun i => ((get_units_sorted (t.filter (get_units_where f))).drop
            (i * s)).take s := by
      funext i
      show ((get_units_sorted (t.filter (get_units_where f))).drop
          ((i + 1 - 1) * s)).take s = _
      rw [Nat.add_sub_cancel]
    rw [hstep]
    exact flatten_chunks s k _ (by rw [hlen]; exact hk)
  refine ⟨?_, rfl, rfl, hpages, ?_, ?_⟩
  · exact List.length_take_le s _
  · rw [hpages]
    exact List.perm_insertionSort _ _
  · rw [hpages, hlen]
    rfl

/-- C5 witness: a three-row table filtered to complete-data VACANT units
paginated with page size 1 over two pages: each page has at most one
row, the pages concatenate to the full sorted filtered listing, a
permutation of the two matching rows. -/
theorem C5_get_units_pagination_witness :
    (get_units
        [⟨"A2", "P1", 1, 1, 500, "VACANT", 1000, 1000, 2, none, none, none,
          false, 0, "LOW", "1BR", "M", 12000, true⟩,
         ⟨"A1", "P1", 1, 1, 500, "VACANT", 1000, 1000, 2, none, none, none,
          true, 0, "HIGH", "1BR", "M", 12000, true⟩,
         ⟨"B1", "P2", 1, 1, 500, "OCCUPIED", 1000, 1000, 2, none, none, none,
          false, 0, "LOW", "1BR", "M", 12000, false⟩]
        ⟨some "VACANT", none, false⟩ 1 1).1.length ≤ 1 ∧
    (get_units
        [⟨"A2", "P1", 1, 1, 500, "VACANT", 1000, 1000, 2, none, none, none,
          false, 0, "LOW", "1BR", "M", 12000, true⟩,
         ⟨"A1", "P1", 1, 1, 500, "VACANT", 1000, 1000, 2, none, none, none,
          true, 0, "HIGH", "1BR", "M", 12000, true⟩,
         ⟨"B1", "P2", 1, 1, 500, "OCCUPIED", 1000, 1000, 2, none, none, none,
          false, 0, "LOW", "1BR", "M", 12000, false⟩]
        ⟨some "VACANT", none, false⟩ 1 1).1
      = ((get_units_sorted
          (([⟨"A2", "P1", 1, 1, 500, "VACANT", 1000, 1000, 2, none, none, none,
              false, 0, "LOW", "1BR", "M", 12000, true⟩,
             ⟨"A1", "P1", 1, 1, 500, "VACANT", 1000, 1000, 2, none, none, none,
              true, 0, "HIGH", "1BR", "M", 12000, true⟩,
             ⟨"B1", "P2", 1, 1, 500, "OCCUPIED", 1000, 1000, 2, none, none,
              none, false, 0, "LOW", "1BR", "M", 12000, false⟩] :
            List UnitRow).filter
              (get_units_where ⟨some "VACANT", none, false⟩))).drop
          ((1 - 1) * 1)).take 1 ∧
    (get_units
        [⟨"A2", "P1", 1, 1, 500, "VACANT", 1000, 1000, 2, none, none, none,
          false, 0, "LOW", "1BR", "M", 12000, true⟩,
         ⟨"A1", "P1", 1, 1, 500, "VACANT", 1000, 1000, 2, none, none, none,
          true, 0, "HIGH", "1BR", "M", 12000, true⟩,
         ⟨"B1", "P2", 1, 1, 500, "OCCUPIED", 1000, 1000, 2, none, none, none,
          false, 0, "LOW", "1BR", "M", 12000, false⟩]
        ⟨some "VACANT", none, false⟩ 1 1).2
      = (([⟨"A2", "P1", 1, 1, 500, "VACANT", 1000, 1000, 2, none, none, none,
            false, 0, "LOW", "1BR", "M", 12000, true⟩,
           ⟨"A1", "P1", 1, 1, 500, "VACANT", 1000, 1000, 2, none, none, none,
            true, 0, "HIGH", "1BR", "M", 12000, true⟩,
           ⟨"B1", "P2", 1, 1, 500, "OCCUPIED", 1000, 1000, 2, none, none,
            none, false, 0, "LOW", "1BR", "M", 12000, false⟩] :
          List UnitRow).filter
            (get_units_where ⟨some "VACANT", none, false⟩)).length ∧
    ((List.range 2).map (fun i =>
        (get_units
          [⟨"A2", "P1", 1, 1, 500, "VACANT", 1000, 1000, 2, none, none, none,
            false, 0, "LOW", "1BR", "M", 12000, true⟩,
           ⟨"A1", "P1", 1, 1, 500, "VACANT", 1000, 1000, 2, none, none, none,
            true, 0, "HIGH", "1BR", "M", 12000, true⟩,
           ⟨"B1", "P2", 1, 1, 500, "OCCUPIED", 1000, 1000, 2, none, none,
            none, false, 0, "LOW", "1BR", "M", 12000, false⟩]
          ⟨some "VACANT", none, false⟩ (i + 1) 1).1)).flatten
      = get_units_sorted
          (([⟨"A2", "P1", 1, 1, 500, "VACANT", 1000, 1000, 2, none, none, none,
              false, 0, "LOW", "1BR", "M", 12000, true⟩,
             ⟨"A1", "P1", 1, 1, 500, "VACANT", 1000, 1000, 2, none, none, none,
              true, 0, "HIGH", "1BR", "M", 12000, true⟩,
             ⟨"B1", "P2", 1, 1, 500, "OCCUPIED", 1000, 1000, 2, none, none,
              none, false, 0, "LOW", "1BR", "M", 12000, false⟩] :
            List UnitRow).filter
              (get_units_where ⟨some "VACANT", none, false⟩)) ∧
    ((List.range 2).map (fun i =>
        (get_units
          [⟨"A2", "P1", 1, 1, 500, "VACANT", 1000, 1000, 2, none, none, none,
            false, 0, "LOW", "1BR", "M", 12000, true⟩,
           ⟨"A1", "P1", 1, 1, 500, "VACANT", 1000, 1000, 2, none, none, none,
            true, 0, "HIGH", "1BR", "M", 12000, true⟩,
           ⟨"B1", "P2", 1, 1, 500, "OCCUPIED", 1000, 1000, 2, none, none,
            none, false, 0, "LOW", "1BR", "M", 12000, false⟩]
          ⟨some "VACANT", none, false⟩ (i + 1) 1).1)).flatten.Perm
      (([⟨"A2", "P1", 1, 1, 500, "VACANT", 1000, 1000, 2, none, none, none,
          false, 0, "LOW", "1BR", "M", 12000, true⟩,
         ⟨"A1", "P1", 1, 1, 500, "VACANT", 1000, 1000, 2, none, none, none,
          true, 0, "HIGH", "1BR", "M", 12000, true⟩,
         ⟨"B1", "P2", 1, 1, 500, "OCCUPIED", 1000, 1000, 2, none, none, none,
          false, 0, "LOW", "1BR", "M", 12000, false⟩] :
        List UnitRow).filter
          (get_units_where ⟨some "VACANT", none, false⟩)) ∧
    ((List.range 2).map (fun i =>
        (get_units
          [⟨"A2", "P1", 1, 1, 500, "VACANT", 1000, 1000, 2, none, none, none,
            false, 0, "LOW", "1BR", "M", 12000, true⟩,
           ⟨"A1", "P1", 1, 1, 500, "VACANT", 1000, 1000, 2, none, none, none,
            true, 0, "HIGH", "1BR", "M", 12000, true⟩,
           ⟨"B1", "P2", 1, 1, 500, "OCCUPIED", 1000, 1000, 2, none, none,
            none, false, 0, "LOW", "1BR", "M", 12000, false⟩]
          ⟨some "VACANT", none, false⟩ (i + 1) 1).1)).flatten.length
      = (get_units
          [⟨"A2", "P1", 1, 1, 500, "VACANT", 1000, 1000, 2, none, none, none,
            false, 0, "LOW", "1BR", "M", 12000, true⟩,
           ⟨"A1", "P1", 1, 1, 500, "VACANT", 1000, 1000, 2, none, none, none,
            true, 0, "HIGH", "1BR", "M", 12000, true⟩,
           ⟨"B1", "P2", 1, 1, 500, "OCCUPIED", 1000, 1000, 2, none, none,
            none, false, 0, "LOW", "1BR", "M", 12000, false⟩]
          ⟨some "VACANT", none, false⟩ 1 1).2 :=
  C5_get_units_pagination
    [⟨"A2", "P1", 1, 1, 500, "VACANT", 1000, 1000, 2, none, none, none,
      false, 0, "LOW", "1BR", "M", 12000, true⟩,
     ⟨"A1", "P1", 1, 1, 500, "VACANT", 1000, 1000, 2, none, none, none,
      true, 0, "HIGH", "1BR", "M", 12000, true⟩,
     ⟨"B1", "P2", 1, 1, 500, "OCCUPIED", 1000, 1000, 2, none, none, none,
      false, 0, "LOW", "1BR", "M", 12000, false⟩]
    ⟨some "VACANT", none, false⟩ 1 1 2
    (by decide) (by decide) (by decide)
